import Mathlib

/-! Shallow embedding of src/plugins/modules/infinidash.py, the single Ansible
module of this repository.  The module wraps three remote SDK operations
(describe_dashes, create_dash, delete_dash) behind declarative parameters.

Modelling conventions:
* module.params is an association list of string-valued parameters; reading a
  missing key yields Option.none, matching Python dict.get returning None.
* Python truthiness of a parameter value: None and the empty string are falsy.
* The remote client and the config-file loader are oracles supplied as
  function-valued arguments, returning Except for fallible calls.
* An execution yields an Outcome (exit_json, fail_json / fail_json_aws, or an
  uncaught Python exception such as UnboundLocalError or TypeError) paired
  with the trace of remote calls actually issued, in order.
* Source line 146 of remove_dash lacks a closing parenthesis; we embed the
  evident nesting, where fail_json_aws terminates the module on a delete
  error before the final exit_json line.
* Argument validation follows AnsibleAWSModule behaviour on the argument_spec
  literal of main (lines 151-164): undeclared parameters are rejected, name
  is required, state is restricted to its choices with default present, and
  each mutually_exclusive group rejects an invocation supplying two or more
  of its named parameters. -/

namespace Infinidash

abbrev Dash := String

abbrev AwsError := String

abbrev Config := String

inductive RemoteCall where
  | describe
  | create
  | delete
deriving DecidableEq, Repr

inductive Outcome where
  | exited (changed : Bool) (dash : Option Dash)
  | failed (msg : String) (exc : Option AwsError)
  | pythonError (msg : String)
deriving DecidableEq, Repr

/-- The remote SDK client obtained from module.client, as an oracle.
describe_dashes is called with DashIds=[id] and its response is used for a
truthiness test, modelled as Option Dash; create_dash receives DashName and
DashConfig; delete_dash receives DashId, which the source reads with
params.get and may therefore pass as None. -/
structure DashClient where
  describe_dashes : String → Except AwsError (Option Dash)
  create_dash : Option String → Option Config → Except AwsError Dash
  delete_dash : Option String → Except AwsError Unit

/-- module.params.get: first binding of the key, None when absent. -/
def pget : List (String × String) → String → Option String
  | [], _ => none
  | p :: ps, k => if p.1 == k then some p.2 else pget ps k

/-- Python truthiness of an optional string parameter value. -/
def truthy : Option String → Bool
  | none => false
  | some s => s != ""

/-- The keys of the argument_spec dict in main (lines 151-159).  Note that
dash_id is absent, although the DOCUMENTATION block declares it. -/
def argumentSpecKeys : List String :=
  ["name", "dash_config", "config_file", "state", "tags", "wait", "wait_timeout"]

def stateChoices : List String := ["present", "absent"]

/-- The mutually_exclusive argument of AnsibleAWSModule (line 163): it names
policy and policy_file, neither of which is a declared parameter. -/
def mutuallyExclusive : List (List String) := [["policy", "policy_file"]]

def unsupportedParamsMsg : String := "Unsupported parameters for (infinidash) module"

def missingNameMsg : String := "missing required arguments: name"

def badStateMsg : String := "value of state must be one of: present, absent"

def mutexMsg : String := "parameters are mutually exclusive: policy, policy_file"

/-- AnsibleAWSModule argument validation over the argument_spec of main.
Arguments are the raw key/value pairs of the invocation; on success the
resulting module.params is returned, with the state default applied.  The
defaults of wait and wait_timeout are never read downstream and are not
materialised. -/
def validateArgs (args : List (String × String)) : Except String (List (String × String)) :=
  if args.any (fun p => !(argumentSpecKeys.contains p.1)) then
    .error unsupportedParamsMsg
  else if (pget args "name").isNone then
    .error missingNameMsg
  else if !(stateChoices.contains ((pget args "state").getD "present")) then
    .error badStateMsg
  else if mutuallyExclusive.any (fun grp => 2 ≤ (grp.filter (fun k => truthy (pget args k))).length) then
    .error mutexMsg
  else
    .ok (if (pget args "state").isSome then args else args ++ [("state", "present")])

def unboundLocalDashMsg : String :=
  "UnboundLocalError: local variable dash referenced before assignment"

def jsonLoadsNoneMsg : String :=
  "TypeError: the JSON object must be str, bytes or bytearray, not NoneType"

def attrResponseMsg : String :=
  "AttributeError: exception object has no attribute response"

inductive PyExc where
  | typeError (msg : String)
  | valueError (msg : String)
deriving DecidableEq

/-- json.loads as called at line 174: a None argument raises TypeError in
Python 3 (only str, bytes or bytearray are accepted); a malformed string
raises a ValueError (json.JSONDecodeError).  A string input is modelled as
parsing to an opaque config, which suffices here because the only call site
passes params.get of policy, and policy is never a declared parameter. -/
def json_loads : Option String → Except PyExc Config
  | none => .error (.typeError jsonLoadsNoneMsg)
  | some s => .ok s

/-- Modelled from the spec: fail_json_aws comes from the external amazon.aws
module_utils package, which is not part of this repository.  Per the spec,
remote-call failures are surfaced as a single terminal failure report
carrying the original error message and traceback; we record the module
message and the original error. -/
def fail_json_aws (msg : String) (e : AwsError) : Outcome :=
  Outcome.failed msg (some e)

/-- create_dash (source lines 120-139).  changed starts False and the local
dash starts unassigned; the describe call happens only under a truthy
dash_id, and the subsequent truthiness test of dash raises
UnboundLocalError when the guard was skipped. -/
def create_dash (client : DashClient) (params : List (String × String))
    (config : Option Config) : Outcome × List RemoteCall :=
  if truthy (pget params "dash_id") then
    match client.describe_dashes ((pget params "dash_id").getD "") with
    | .error e =>
        (fail_json_aws ("Failed to describe dash ID " ++ (pget params "dash_id").getD "") e,
          [RemoteCall.describe])
    | .ok dash =>
        if dash.isSome then
          (Outcome.exited false dash, [RemoteCall.describe])
        else
          match client.create_dash (pget params "name") config with
          | .error e =>
              (fail_json_aws "Dash creation failed!" e, [RemoteCall.describe, RemoteCall.create])
          | .ok d =>
              (Outcome.exited true (some d), [RemoteCall.describe, RemoteCall.create])
  else
    (Outcome.pythonError unboundLocalDashMsg, [])

/-- remove_dash (source lines 141-147): changed is set True unconditionally,
delete_dash is issued with DashId = params.get of dash_id, a delete error is
terminal via fail_json_aws, and otherwise exit_json reports changed with
dash=None.  No describe call is made first. -/
def remove_dash (client : DashClient) (params : List (String × String)) :
    Outcome × List RemoteCall :=
  match client.delete_dash (pget params "dash_id") with
  | .error e =>
      (fail_json_aws ("Failed to delete dash ID " ++ (pget params "dash_id").getD "") e,
        [RemoteCall.delete])
  | .ok _ => (Outcome.exited true none, [RemoteCall.delete])

/-- main (source lines 150-188).  After validation, state present first
builds config: a truthy dash_config routes through json.loads on the missing
policy parameter, whose TypeError is not caught by the except ValueError
handler (and that handler itself dereferences e.response, which a ValueError
lacks, modelled for the config_file branch whose except Exception handler
does run); a truthy config_file loads the file, any loader exception leading
the handler to dereference e.response and die with AttributeError.
create_dash then runs with the resulting config; state absent runs
remove_dash. -/
def runModule (client : DashClient) (loadFile : String → Except String Config)
    (args : List (String × String)) : Outcome × List RemoteCall :=
  match validateArgs args with
  | .error msg => (Outcome.failed msg none, [])
  | .ok params =>
      let state := (pget params "state").getD "present"
      if state == "present" then
        if truthy (pget params "dash_config") then
          match json_loads (pget params "policy") with
          | .error (PyExc.typeError m) => (Outcome.pythonError m, [])
          | .error (PyExc.valueError _) => (Outcome.pythonError attrResponseMsg, [])
          | .ok config => create_dash client params (some config)
        else if truthy (pget params "config_file") then
          match loadFile ((pget params "config_file").getD "") with
          | .error _ => (Outcome.pythonError attrResponseMsg, [])
          | .ok config => create_dash client params (some config)
        else
          create_dash client params none
      else
        remove_dash client params

/-! Helper lemmas about pget and validateArgs. -/

theorem pget_none_of_all (l : List (String × String)) (k : String)
    (h : ∀ p ∈ l, (p.1 == k) = false) : pget l k = none := by
  induction l with
  | nil => rfl
  | cons p ps ih =>
      rw [pget, if_neg]
      · exact ih (fun q hq => h q (List.mem_cons_of_mem p hq))
      · simp [h p (List.mem_cons_self p ps)]

theorem pget_append_of_none (l₁ l₂ : List (String × String)) (k : String)
    (h : pget l₁ k = none) : pget (l₁ ++ l₂) k = pget l₂ k := by
  induction l₁ with
  | nil => rfl
  | cons p ps ih =>
      rw [pget] at h
      rw [List.cons_append, pget]
      by_cases hb : (p.1 == k) = true
      · rw [if_pos hb] at h
        exact Option.noConfusion h
      · rw [if_neg hb] at h
        rw [if_neg hb]
        exact ih h

/-- A key that is neither in the argument spec nor equal to state is absent
from the params of every invocation that passes validation. -/
theorem validate_key_absent (args params : List (String × String)) (k : String)
    (hk : argumentSpecKeys.contains k = false) (hs : ("state" == k) = false)
    (hv : validateArgs args = .ok params) : pget params k = none := by
  unfold validateArgs at hv
  split at hv
  · exact absurd hv (by simp)
  next h1 =>
    split at hv
    · exact absurd hv (by simp)
    split at hv
    · exact absurd hv (by simp)
    split at hv
    · exact absurd hv (by simp)
    have hparams :
        (if (pget args "state").isSome then args else args ++ [("state", "present")]) = params := by
      injection hv
    have hargs : pget args k = none := by
      apply pget_none_of_all
      intro p hp
      by_cases hc : (p.1 == k) = true
      · exfalso
        have hmem : argumentSpecKeys.contains p.1 = true := by
          by_contra hcon
          have hfalse : argumentSpecKeys.contains p.1 = false := by
            revert hcon; cases argumentSpecKeys.contains p.1 <;> simp
          exact h1 (List.any_eq_true.mpr ⟨p, hp, by rw [hfalse]; rfl⟩)
        have hpk : p.1 = k := eq_of_beq hc
        rw [hpk] at hmem
        rw [hmem] at hk
        exact Bool.noConfusion hk
      · revert hc; cases (p.1 == k) <;> simp
    rw [← hparams]
    split
    · exact hargs
    · rw [pget_append_of_none _ _ _ hargs, pget, if_neg]
      · rfl
      · simp [hs]

/-! Concrete oracles used by the evaluation theorems. -/

def clientOkC1 : DashClient where
  describe_dashes := fun _ => .ok none
  create_dash := fun _ _ => .ok "arn:aws:dash:c1"
  delete_dash := fun _ => .ok ()

def loadOkC1 : String → Except String Config := fun _ => .ok "cfg"

def c1Args : List (String × String) :=
  [("name", "x"), ("dash_config", "null"), ("config_file", "/tmp/dash.json"),
    ("state", "present")]

/-- C1: an invocation supplying both dash_config and config_file non-empty is
NOT rejected at parameter validation: the mutually_exclusive list of main
names policy and policy_file, neither of which is a declared parameter, so
validation accepts the pair; execution then dies on the uncaught TypeError
of json.loads applied to None rather than on a parameter-validation failure
(no remote call is issued either way). -/
theorem c1_both_sources_not_rejected :
    (validateArgs c1Args).isOk = true ∧
    runModule clientOkC1 loadOkC1 c1Args = (Outcome.pythonError jsonLoadsNoneMsg, []) :=
  ⟨rfl, rfl⟩

def clientOkC2 : DashClient where
  describe_dashes := fun _ => .ok none
  create_dash := fun _ _ => .ok "arn:aws:dash:c2"
  delete_dash := fun _ => .ok ()

def loadOkC2 : String → Except String Config := fun _ => .ok "cfg"

def c2Args : List (String × String) := [("name", "x"), ("state", "absent")]

/-- C2: a state=absent invocation without a dash_id is not rejected: dash_id
is not a declared parameter at all, validation passes, and remove_dash
issues the delete call with DashId None and exits changed=true. -/
theorem c2_absent_without_id_not_rejected :
    (validateArgs c2Args).isOk = true ∧
    runModule clientOkC2 loadOkC2 c2Args = (Outcome.exited true none, [RemoteCall.delete]) :=
  ⟨rfl, rfl⟩

def clientOkC3 : DashClient where
  describe_dashes := fun _ => .ok none
  create_dash := fun _ _ => .ok "arn:aws:dash:c3"
  delete_dash := fun _ => .ok ()

def loadOkC3 : String → Except String Config := fun _ => .ok "cfg"

def c3Args : List (String × String) := [("name", "x"), ("state", "present")]

/-- C3: a plain state=present invocation neither creates nor returns the
resource: create_dash reads the unbound local dash and the module dies with
an uncaught UnboundLocalError, without issuing any remote call. -/
theorem c3_present_contract_violated :
    runModule clientOkC3 loadOkC3 c3Args = (Outcome.pythonError unboundLocalDashMsg, []) :=
  rfl

def c4Args : List (String × String) :=
  [("name", "x"), ("dash_id", "d-123"), ("state", "absent")]

/-- C4: dash_id is not among the keys of the argument_spec of main, although
the DOCUMENTATION block declares it; an invocation supplying dash_id is
therefore rejected as an unsupported parameter. -/
theorem c4_dash_id_rejected :
    validateArgs c4Args = Except.error unsupportedParamsMsg :=
  rfl

def c5Client : DashClient where
  describe_dashes := fun _ => .ok none
  create_dash := fun _ _ => .ok "arn:aws:dash:c5-created"
  delete_dash := fun _ => .ok ()

def loadOkC5 : String → Except String Config := fun _ => .ok "cfg"

def c5Args : List (String × String) := [("name", "NewDash"), ("state", "present")]

/-- C5: even with a remote side on which the resource is absent and create
would succeed, a state=present invocation never reaches the create call:
dash_id is never a parameter, so create_dash crashes on the unbound local
dash with an empty remote-call trace instead of exiting changed=true with
an identifier. -/
theorem c5_successful_create_unreachable :
    runModule c5Client loadOkC5 c5Args = (Outcome.pythonError unboundLocalDashMsg, []) :=
  rfl

def c6Client : DashClient where
  describe_dashes := fun _ => .ok (some "arn:aws:dash:c6-existing")
  create_dash := fun _ _ => .ok "arn:aws:dash:c6-created"
  delete_dash := fun _ => .ok ()

def loadOkC6 : String → Except String Config := fun _ => .ok "cfg"

def c6Args : List (String × String) := [("name", "ExistingDash"), ("state", "present")]

/-- C6: even with a remote side on which describe would report the resource
as existing, a state=present invocation never performs the describe call
(the dash_id guard is always false) and crashes on the unbound local dash
instead of exiting changed=false. -/
theorem c6_existing_resource_not_noop :
    runModule c6Client loadOkC6 c6Args = (Outcome.pythonError unboundLocalDashMsg, []) :=
  rfl

/-- C7: each of the three remote calls is wrapped in a try/except over the
SDK error types at its call site, and an error there terminates the module
through fail_json_aws as a single failure report carrying the original
error, with no further remote call (no local retry or recovery): the first
conjunct covers a describe error, the second a create error after a
successful empty describe, the third a delete error. -/
theorem c7_remote_failures_terminal (client : DashClient)
    (params : List (String × String)) :
    (∀ (config : Option Config) (id : String) (e : AwsError),
        pget params "dash_id" = some id → id ≠ "" →
        client.describe_dashes id = .error e →
        create_dash client params config =
          (Outcome.failed ("Failed to describe dash ID " ++ id) (some e),
            [RemoteCall.describe])) ∧
    (∀ (config : Option Config) (id : String) (e : AwsError),
        pget params "dash_id" = some id → id ≠ "" →
        client.describe_dashes id = .ok none →
        client.create_dash (pget params "name") config = .error e →
        create_dash client params config =
          (Outcome.failed "Dash creation failed!" (some e),
            [RemoteCall.describe, RemoteCall.create])) ∧
    (∀ (e : AwsError),
        client.delete_dash (pget params "dash_id") = .error e →
        remove_dash client params =
          (Outcome.failed ("Failed to delete dash ID " ++ (pget params "dash_id").getD "")
              (some e),
            [RemoteCall.delete])) := by
  refine ⟨?_, ?_, ?_⟩
  · intro config id e h1 h2 h3
    have hid : (id != "") = true := bne_iff_ne.mpr h2
    simp [create_dash, truthy, h1, hid, h3, fail_json_aws]
  · intro config id e h1 h2 h3 h4
    have hid : (id != "") = true := bne_iff_ne.mpr h2
    simp [create_dash, truthy, h1, hid, h3, h4, fail_json_aws]
  · intro e h
    simp [remove_dash, h, fail_json_aws]

def c7ClientDescribeErr : DashClient where
  describe_dashes := fun _ => .error "describe boom"
  create_dash := fun _ _ => .ok "arn:aws:dash:unused"
  delete_dash := fun _ => .error "delete boom"

def c7ClientCreateErr : DashClient where
  describe_dashes := fun _ => .ok none
  create_dash := fun _ _ => .error "create boom"
  delete_dash := fun _ => .ok ()

def c7Params : List (String × String) := [("name", "x"), ("dash_id", "d-1")]

/-- Witness for C7: concrete clients erring on describe, create and delete
respectively, each surfaced as the single terminal failure report carrying
the original error message. -/
theorem c7_witness :
    create_dash c7ClientDescribeErr c7Params none =
      (Outcome.failed ("Failed to describe dash ID " ++ "d-1") (some "describe boom"),
        [RemoteCall.describe]) ∧
    create_dash c7ClientCreateErr c7Params none =
      (Outcome.failed "Dash creation failed!" (some "create boom"),
        [RemoteCall.describe, RemoteCall.create]) ∧
    remove_dash c7ClientDescribeErr c7Params =
      (Outcome.failed ("Failed to delete dash ID " ++ "d-1") (some "delete boom"),
        [RemoteCall.delete]) := by
  refine ⟨?_, ?_, ?_⟩
  · exact (c7_remote_failures_terminal c7ClientDescribeErr c7Params).1 none "d-1"
      "describe boom" rfl (by decide) rfl
  · exact (c7_remote_failures_terminal c7ClientCreateErr c7Params).2.1 none "d-1"
      "create boom" rfl (by decide) rfl rfl
  · exact (c7_remote_failures_terminal c7ClientDescribeErr c7Params).2.2
      "delete boom" rfl

/-- C8: dash_id is never an accepted parameter, so it is absent from the
params of every invocation that passes validation; create_dash then skips
the describe guard and evaluates the local variable dash without it ever
having been assigned, terminating with an uncaught UnboundLocalError before
any remote call. -/
theorem c8_create_dash_unbound_local (client : DashClient)
    (args params : List (String × String)) (config : Option Config)
    (hv : validateArgs args = .ok params) :
    pget params "dash_id" = none ∧
    create_dash client params config = (Outcome.pythonError unboundLocalDashMsg, []) := by
  have hd : pget params "dash_id" = none :=
    validate_key_absent args params "dash_id" (by decide) (by decide) hv
  exact ⟨hd, by simp [create_dash, truthy, hd]⟩

def c8Client : DashClient where
  describe_dashes := fun _ => .ok none
  create_dash := fun _ _ => .ok "arn:aws:dash:c8"
  delete_dash := fun _ => .ok ()

def c8Args : List (String × String) := [("name", "x"), ("state", "present")]

/-- Witness for C8 at a concrete validated state=present invocation. -/
theorem c8_witness :
    pget c8Args "dash_id" = none ∧
    create_dash c8Client c8Args none = (Outcome.pythonError unboundLocalDashMsg, []) :=
  c8_create_dash_unbound_local c8Client c8Args c8Args none rfl

/-- C9: in every validated state=present invocation with a truthy
dash_config, main parses the configuration from the absent policy parameter:
json.loads receives None and raises TypeError, which the except ValueError
handler does not catch (that handler would itself dereference e.response, an
attribute a ValueError lacks), so the module dies before any remote call and
the create call is never reached with the supplied configuration. -/
theorem c9_dash_config_never_reaches_create (client : DashClient)
    (loadFile : String → Except String Config)
    (args params : List (String × String))
    (hv : validateArgs args = .ok params)
    (hs : (pget params "state").getD "present" = "present")
    (hc : truthy (pget params "dash_config") = true) :
    runModule client loadFile args = (Outcome.pythonError jsonLoadsNoneMsg, []) := by
  have hpol : pget params "policy" = none :=
    validate_key_absent args params "policy" (by decide) (by decide) hv
  simp [runModule, hv, hs, hc, hpol, json_loads]

def c9Client : DashClient where
  describe_dashes := fun _ => .ok none
  create_dash := fun _ _ => .ok "arn:aws:dash:c9"
  delete_dash := fun _ => .ok ()

def c9Load : String → Except String Config := fun _ => .ok "cfg"

def c9Args : List (String × String) :=
  [("name", "x"), ("dash_config", "null"), ("state", "present")]

/-- Witness for C9 at a concrete invocation with a non-empty dash_config. -/
theorem c9_witness :
    runModule c9Client c9Load c9Args = (Outcome.pythonError jsonLoadsNoneMsg, []) :=
  c9_dash_config_never_reaches_create c9Client c9Load c9Args c9Args rfl rfl rfl

/-- C10: every validated state=absent invocation whose delete call succeeds
exits with changed=true unconditionally and a null dash, and its remote-call
trace is exactly the delete call: no describe is performed first, so the
reported change flag is independent of prior existence of the resource. -/
theorem c10_remove_always_changed (client : DashClient)
    (loadFile : String → Except String Config)
    (args params : List (String × String))
    (hv : validateArgs args = .ok params)
    (hs : (pget params "state").getD "present" = "absent")
    (hd : client.delete_dash (pget params "dash_id") = .ok ()) :
    runModule client loadFile args = (Outcome.exited true none, [RemoteCall.delete]) := by
  simp [runModule, hv, hs, remove_dash, hd]

def c10Client : DashClient where
  describe_dashes := fun _ => .ok (some "arn:aws:dash:c10-existing")
  create_dash := fun _ _ => .ok "arn:aws:dash:c10"
  delete_dash := fun _ => .ok ()

def c10Load : String → Except String Config := fun _ => .ok "cfg"

def c10Args : List (String × String) := [("name", "x"), ("state", "absent")]

/-- Witness for C10 at a concrete state=absent invocation with a succeeding
delete (on a remote side where the resource even exists, yet no describe is
issued). -/
theorem c10_witness :
    runModule c10Client c10Load c10Args = (Outcome.exited true none, [RemoteCall.delete]) :=
  c10_remove_always_changed c10Client c10Load c10Args c10Args rfl rfl rfl

end Infinidash
